import Mathlib

/-!
Shallow embedding of the mesh area-conservation force computes of
hoomd-blue (`TriangleAreaConservationMeshForceCompute.cc` and the
post-kernel caller logic of `AreaConservationMeshForceComputeGPU.cc`),
over exact real arithmetic.  The periodic-box minimum-image primitive is
external to the sources and is modelled as an abstract function
`Scalar3 → Scalar3`.
-/

noncomputable section

/-- A 3-component real vector, mirroring HOOMD's `Scalar3`. -/
structure Scalar3 where
  x : ℝ
  y : ℝ
  z : ℝ

instance : Add Scalar3 := ⟨fun u v => ⟨u.x + v.x, u.y + v.y, u.z + v.z⟩⟩

instance : Sub Scalar3 := ⟨fun u v => ⟨u.x - v.x, u.y - v.y, u.z - v.z⟩⟩

instance : HMul ℝ Scalar3 Scalar3 := ⟨fun s v => ⟨s * v.x, s * v.y, s * v.z⟩⟩

instance : HDiv Scalar3 ℝ Scalar3 := ⟨fun v s => ⟨v.x / s, v.y / s, v.z / s⟩⟩

/-- Componentwise dot product, as written out in the source. -/
def dotP (u v : Scalar3) : ℝ :=
  u.x * v.x + u.y * v.y + u.z * v.z

/-- Per-type parameter table: `m_K` and `m_Amesh`, indexed by type. -/
structure TriParams where
  K : ℕ → ℝ
  Amesh : ℕ → ℝ

/-- Particle data: positions and the tag-to-index map (`h_pos`, `h_rtag`),
the locally owned particle count `getN()` and the ghost count. -/
structure PData where
  pos : ℕ → Scalar3
  rtag : ℕ → ℕ
  n : ℕ
  nGhosts : ℕ

/-- One mesh triangle: three particle tags plus the triangle's own type
(the type is carried by the mesh data but never consulted by the
sequential force loop). -/
structure MeshTriangle where
  tag0 : ℕ
  tag1 : ℕ
  tag2 : ℕ
  ttype : ℕ

/-- The accumulators of a force compute pass: per-particle force
(`h_force.xyz`), per-particle energy share (`h_force.w`), per-particle
virial rows and the running mesh area `m_area`. -/
structure ForceState where
  force : ℕ → Scalar3
  energyW : ℕ → ℝ
  virial : ℕ → Fin 6 → ℝ
  area : ℝ

/-- Zeroed accumulators (`memset` to 0 and `m_area = 0`). -/
def initialForceState : ForceState :=
  { force := fun _ => ⟨0, 0, 0⟩
    energyW := fun _ => 0
    virial := fun _ _ => 0
    area := 0 }

/-- Minimum-image edge vector from particle `i` to particle `j`. -/
def dVec (box : Scalar3 → Scalar3) (pos : ℕ → Scalar3) (i j : ℕ) : Scalar3 :=
  box (pos j - pos i)

/-- The argument of the square root in the geometry kernel:
`rsqab * rsqac - rabrac * rabrac`. -/
def areaSqArg (dab dac : Scalar3) : ℝ :=
  dotP dab dab * dotP dac dac - dotP dab dac * dotP dab dac

/-- `area2 = sqrt(rsqab * rsqac - rabrac * rabrac)`, exactly as in the
source: the subtraction is fed to the square root with no clamping. -/
def area2 (dab dac : Scalar3) : ℝ :=
  Real.sqrt (areaSqArg dab dac)

/-- The per-vertex virial contribution: the local 6-vector array is
zero-initialised before the loop and only written when the virial is
requested, so with `compute_virial` false each accumulation adds zero. -/
def virCoeffs (computeVirial : Bool) (d F : Scalar3) : Fin 6 → ℝ :=
  if computeVirial then
    ![1 / 2 * (d.x * F.x), 1 / 2 * (d.y * F.x), 1 / 2 * (d.z * F.x),
      1 / 2 * (d.y * F.y), 1 / 2 * (d.z * F.y), 1 / 2 * (d.z * F.z)]
  else fun _ => 0

/-- Accumulation into one vertex slot, guarded by the ghost test
`idx < m_pdata->getN()`. -/
def accumulate (n idx : ℕ) (F : Scalar3) (epp : ℝ) (vir : Fin 6 → ℝ)
    (st : ForceState) : ForceState :=
  if idx < n then
    { st with
      force := Function.update st.force idx (st.force idx + F)
      energyW := Function.update st.energyW idx (st.energyW idx + epp)
      virial := Function.update st.virial idx (fun j => st.virial idx j + vir j) }
  else st

/-- The body of the per-triangle loop of
`TriangleAreaConservationMeshForceCompute::computeForces`. -/
def triangleStep (p : TriParams) (box : Scalar3 → Scalar3) (pd : PData)
    (computeVirial : Bool) (At : ℝ) (st : ForceState) (tri : MeshTriangle) :
    ForceState :=
  let idxA := pd.rtag tri.tag0
  let idxB := pd.rtag tri.tag1
  let idxC := pd.rtag tri.tag2
  let dab := dVec box pd.pos idxA idxB
  let dac := dVec box pd.pos idxA idxC
  let da := pd.pos idxA
  let db := pd.pos idxB
  let dc := pd.pos idxC
  let rsqab := dotP dab dab
  let rsqac := dotP dac dac
  let rabrac := dotP dab dac
  let a2 := area2 dab dac
  let prefactor := -p.K 0 / (2 * At * a2) * (a2 / 2 - At)
  let energyPP := p.K 0 / (6 * At) * (a2 / 2 - At) * (a2 / 2 - At)
  let st1 := { st with area := st.area + a2 / 2 }
  let Fa := prefactor * ((rabrac - rsqac) * dab + (rabrac - rsqab) * dac)
  let Fb := prefactor * (rsqac * dab - rabrac * dac)
  let Fc := prefactor * (rsqab * dac - rabrac * dab)
  let st2 := accumulate pd.n idxA Fa energyPP (virCoeffs computeVirial da Fa) st1
  let st3 := accumulate pd.n idxB Fb energyPP (virCoeffs computeVirial db Fb) st2
  accumulate pd.n idxC Fc energyPP (virCoeffs computeVirial dc Fc) st3

/-- `TriangleAreaConservationMeshForceCompute::computeForces`: zero the
accumulators, fix `At = m_Amesh[0] / size` from the total triangle
count, then run the loop over all triangles. -/
def computeForces (p : TriParams) (box : Scalar3 → Scalar3) (pd : PData)
    (computeVirial : Bool) (tris : List MeshTriangle) : ForceState :=
  let At := p.Amesh 0 / (tris.length : ℝ)
  tris.foldl (triangleStep p box pd computeVirial At) initialForceState

/-- Euclidean length of a vector, `sqrt(v.v)` as written in `energyDiff`. -/
def rlen (v : Scalar3) : ℝ :=
  Real.sqrt (dotP v v)

/-- The clamp applied to every interior-angle cosine in `energyDiff`:
first values above 1 are pulled down to 1, then values below -1 up
to -1. -/
def clamp1 (c : ℝ) : ℝ :=
  let c1 := if c > 1 then 1 else c
  if c1 < -1 then -1 else c1

/-- `sqrt(1 - c * c)`: the sine of an angle recovered from its (clamped)
cosine. -/
def sOf (c : ℝ) : ℝ :=
  Real.sqrt (1 - c * c)

/-- Unit vector along the edge from particle `i` to particle `j`. -/
def nVec (box : Scalar3 → Scalar3) (pos : ℕ → Scalar3) (i j : ℕ) : Scalar3 :=
  dVec box pos i j / rlen (dVec box pos i j)

/-- The clamped cosine `c_baac` of `energyDiff`: angle at `a` between
edges `ab` and `ac`. -/
def cBaac (box : Scalar3 → Scalar3) (pos : ℕ → Scalar3) (a b c : ℕ) : ℝ :=
  clamp1 (dotP (nVec box pos a b) (nVec box pos a c))

/-- The clamped cosine `c_abbd` of `energyDiff`: angle at `b` between
edges `ba` and `bd` (the dot product is negated in the source). -/
def cAbbd (box : Scalar3 → Scalar3) (pos : ℕ → Scalar3) (a b d : ℕ) : ℝ :=
  clamp1 (-(dotP (nVec box pos a b) (nVec box pos b d)))

/-- The clamped cosine `c_dcca` of `energyDiff`: angle at `c` between
edges `dc` and `ac`. -/
def cDcca (box : Scalar3 → Scalar3) (pos : ℕ → Scalar3) (a c d : ℕ) : ℝ :=
  clamp1 (dotP (nVec box pos d c) (nVec box pos a c))

/-- The clamped cosine `c_bddc` of `energyDiff`: angle at `d` between
edges `dc` and `bd` (the dot product is negated in the source). -/
def cBddc (box : Scalar3 → Scalar3) (pos : ℕ → Scalar3) (b c d : ℕ) : ℝ :=
  clamp1 (-(dotP (nVec box pos d c) (nVec box pos b d)))

/-- Law-of-sines area of triangle `abc`: `rab * rac * s_baac / 2`. -/
def areaAbc (box : Scalar3 → Scalar3) (pos : ℕ → Scalar3) (a b c : ℕ) : ℝ :=
  rlen (dVec box pos a b) * rlen (dVec box pos a c) * sOf (cBaac box pos a b c) / 2

/-- Law-of-sines area of triangle `abd`: `rab * rbd * s_abbd / 2`. -/
def areaAbd (box : Scalar3 → Scalar3) (pos : ℕ → Scalar3) (a b d : ℕ) : ℝ :=
  rlen (dVec box pos a b) * rlen (dVec box pos b d) * sOf (cAbbd box pos a b d) / 2

/-- Law-of-sines area of triangle `acd`: `rac * rdc * s_dcca / 2`. -/
def areaAcd (box : Scalar3 → Scalar3) (pos : ℕ → Scalar3) (a c d : ℕ) : ℝ :=
  rlen (dVec box pos a c) * rlen (dVec box pos d c) * sOf (cDcca box pos a c d) / 2

/-- Law-of-sines area of triangle `bcd`: `rdc * rbd * s_bddc / 2`. -/
def areaBcd (box : Scalar3 → Scalar3) (pos : ℕ → Scalar3) (b c d : ℕ) : ℝ :=
  rlen (dVec box pos d c) * rlen (dVec box pos b d) * sOf (cBddc box pos b c d) / 2

/-- `TriangleAreaConservationMeshForceCompute::energyDiff`, transcribed
linearly from the source: edge vectors under minimum image, lengths,
unit vectors, four clamped cosines, four sines, four `area - m_Amesh
[type_id]` deviations, final scale by `m_K[0] / (2 * m_Amesh[0])`. -/
def energyDiff (p : TriParams) (box : Scalar3 → Scalar3) (pos : ℕ → Scalar3)
    (idxA idxB idxC idxD typeId : ℕ) : ℝ :=
  let dab := box (pos idxB - pos idxA)
  let dac := box (pos idxC - pos idxA)
  let dbd := box (pos idxD - pos idxB)
  let ddc := box (pos idxC - pos idxD)
  let rab := Real.sqrt (dotP dab dab)
  let rac := Real.sqrt (dotP dac dac)
  let rbd := Real.sqrt (dotP dbd dbd)
  let rdc := Real.sqrt (dotP ddc ddc)
  let nab := dab / rab
  let nac := dac / rac
  let nbd := dbd / rbd
  let ndc := ddc / rdc
  let cbaac := clamp1 (dotP nab nac)
  let cabbd := clamp1 (-(dotP nab nbd))
  let cdcca := clamp1 (dotP ndc nac)
  let cbddc := clamp1 (-(dotP ndc nbd))
  let sbaac := Real.sqrt (1 - cbaac * cbaac)
  let sabbd := Real.sqrt (1 - cabbd * cabbd)
  let sdcca := Real.sqrt (1 - cdcca * cdcca)
  let sbddc := Real.sqrt (1 - cbddc * cbddc)
  let energyOld1 := rab * rac * sbaac / 2 - p.Amesh typeId
  let energyOld2 := rab * rbd * sabbd / 2 - p.Amesh typeId
  let energyNew1 := rac * rdc * sdcca / 2 - p.Amesh typeId
  let energyNew2 := rdc * rbd * sbddc / 2 - p.Amesh typeId
  p.K 0 / (2 * p.Amesh 0)
    * (energyNew1 * energyNew1 + energyNew2 * energyNew2
       - energyOld1 * energyOld1 - energyOld2 * energyOld2)

/-- The claim's reading of the incremental energy delta, following the
spec's words: one single type index `j` supplies the stiffness `K`, the
scale target area and all four deviation targets.  Stated only to be
compared against `energyDiff`, which is transcribed from the source. -/
def energyDiffClaim (p : TriParams) (box : Scalar3 → Scalar3)
    (pos : ℕ → Scalar3) (idxA idxB idxC idxD j : ℕ) : ℝ :=
  let en1 := areaAcd box pos idxA idxC idxD - p.Amesh j
  let en2 := areaBcd box pos idxB idxC idxD - p.Amesh j
  let eo1 := areaAbc box pos idxA idxB idxC - p.Amesh j
  let eo2 := areaAbd box pos idxA idxB idxD - p.Amesh j
  p.K j / (2 * p.Amesh j) * (en1 * en1 + en2 * en2 - eo1 * eo1 - eo2 * eo2)

/-- Outcome of the post-batch fault-flag inspection on the host. -/
inductive FlagCheckResult where
  | ok : FlagCheckResult
  | fatalError (message : String) (rawFlag : ℕ) : FlagCheckResult
deriving DecidableEq

/-- The caller-side check after the batched kernel in
`AreaConservationMeshForceComputeGPU::computeForces`: only when CUDA
error checking is enabled is the flag read; a set low bit raises a
fatal error whose diagnostic carries the raw flag value. -/
def postKernelFlagCheck (errorCheckingEnabled : Bool) (flag : ℕ) :
    FlagCheckResult :=
  if errorCheckingEnabled then
    if flag &&& 1 ≠ 0 then
      FlagCheckResult.fatalError "AreaConservation: triangle out of bounds" flag
    else FlagCheckResult.ok
  else FlagCheckResult.ok

/-- The parameter store of the compute: `m_K`, `m_Amesh` and the type
count used by `getParams`'s bound check. -/
structure ParamStore where
  K : ℕ → ℝ
  Amesh : ℕ → ℝ
  nTypes : ℕ

/-- `TriangleAreaConservationMeshForceCompute::setParams`: store the
supplied values unconditionally, then emit a warning for each
non-positive value. -/
def setParams (st : ParamStore) (type : ℕ) (Kv Av : ℝ) :
    ParamStore × List String :=
  ({ st with
      K := Function.update st.K type Kv
      Amesh := Function.update st.Amesh type Av },
   (if Kv ≤ 0 then ["TriangleAreaConservation: specified K <= 0"] else [])
     ++ (if Av ≤ 0 then ["TriangleAreaConservation: specified A_mesh <= 0"] else []))

/-- `TriangleAreaConservationMeshForceCompute::getParams`: reject a type
index at or past the type count, otherwise return the stored pair. -/
def getParams (st : ParamStore) (typ : ℕ) : Except String (ℝ × ℝ) :=
  if st.nTypes ≤ typ then
    Except.error "Error setting parameters in TriangleAreaConservationMeshForceCompute"
  else Except.ok (st.K typ, st.Amesh typ)

/-- Identity minimum image: a box so large that no wrap is needed. -/
def idBox : Scalar3 → Scalar3 := fun v => v

/-- Concrete particle positions for evaluating the incremental
energy-delta evaluator: `a = (0,0,0)`, `b = (1,0,0)`, `c = (-12,5,0)`,
`d = (1,5,0)`, a planar quadrilateral whose four boundary edges have
integer lengths 1, 13, 5, 13. -/
def posE : ℕ → Scalar3 := fun i =>
  if i = 0 then ⟨0, 0, 0⟩
  else if i = 1 then ⟨1, 0, 0⟩
  else if i = 2 then ⟨-12, 5, 0⟩
  else ⟨1, 5, 0⟩

/-- Concrete parameter table with distinct target areas at indices 0
and 1. -/
def pE : TriParams := ⟨fun _ => 1, fun i => if i = 0 then 1 else 2⟩

/-- Concrete positions for witnesses of the sequential-evaluator
claims: a unit right triangle at particles 0, 1, 2. -/
def posW : ℕ → Scalar3 := fun i =>
  if i = 0 then ⟨0, 0, 0⟩
  else if i = 1 then ⟨1, 0, 0⟩
  else ⟨0, 1, 0⟩

/-- Concrete particle data: identity tag map, 3 owned particles. -/
def pdW : PData := ⟨posW, fun t => t, 3, 0⟩

/-- Concrete mesh triangle over tags 0, 1, 2. -/
def triW : MeshTriangle := ⟨0, 1, 2, 0⟩

/-- Concrete parameters for the sequential-evaluator witnesses. -/
def pW : TriParams := ⟨fun _ => 12, fun _ => 1⟩

end

section HelperLemmas

@[simp] lemma Scalar3_sub (u v : Scalar3) :
    u - v = ⟨u.x - v.x, u.y - v.y, u.z - v.z⟩ := rfl

@[simp] lemma Scalar3_add (u v : Scalar3) :
    u + v = ⟨u.x + v.x, u.y + v.y, u.z + v.z⟩ := rfl

@[simp] lemma Scalar3_smul (s : ℝ) (v : Scalar3) :
    s * v = (⟨s * v.x, s * v.y, s * v.z⟩ : Scalar3) := rfl

@[simp] lemma Scalar3_sdiv (v : Scalar3) (s : ℝ) :
    v / s = (⟨v.x / s, v.y / s, v.z / s⟩ : Scalar3) := rfl

lemma clamp1_bounds (c : ℝ) : -1 ≤ clamp1 c ∧ clamp1 c ≤ 1 := by
  simp only [clamp1]
  split_ifs <;> constructor <;> linarith

lemma clamp1_sq_le (c : ℝ) : 0 ≤ 1 - clamp1 c * clamp1 c := by
  obtain ⟨h1, h2⟩ := clamp1_bounds c
  nlinarith

lemma clamp1_of_mem (c : ℝ) (h1 : ¬ c > 1) (h2 : ¬ c < -1) : clamp1 c = c := by
  simp only [clamp1]
  rw [if_neg h1, if_neg h2]

lemma rlen_mk (x y z r : ℝ) (hr : 0 ≤ r) (h : x * x + y * y + z * z = r ^ 2) :
    rlen ⟨x, y, z⟩ = r := by
  unfold rlen dotP
  rw [show (⟨x, y, z⟩ : Scalar3).x * (⟨x, y, z⟩ : Scalar3).x
        + (⟨x, y, z⟩ : Scalar3).y * (⟨x, y, z⟩ : Scalar3).y
        + (⟨x, y, z⟩ : Scalar3).z * (⟨x, y, z⟩ : Scalar3).z = r ^ 2 from h,
      Real.sqrt_sq hr]

lemma sOf_eval (c s : ℝ) (hs : 0 ≤ s) (h : 1 - c * c = s ^ 2) : sOf c = s := by
  unfold sOf
  rw [h, Real.sqrt_sq hs]

end HelperLemmas

/-- Claim C4: the sequential geometry kernel feeds
`rsqab * rsqac - rabrac * rabrac` directly to the square root with no
clamp; at the collinear failing input `dab = (1,0,0)`, `dac = (2,0,0)`
the subtraction is exactly zero — the boundary at which floating
round-off can drive the unclamped argument negative — and the exact
evaluation yields `area2 = 0`. -/
theorem C4_area2_collinear_eval :
    areaSqArg ⟨1, 0, 0⟩ ⟨2, 0, 0⟩ = 0 ∧ area2 ⟨1, 0, 0⟩ ⟨2, 0, 0⟩ = 0 := by
  have h : areaSqArg ⟨1, 0, 0⟩ ⟨2, 0, 0⟩ = 0 := by
    unfold areaSqArg dotP
    norm_num
  refine ⟨h, ?_⟩
  unfold area2
  rw [h, Real.sqrt_zero]

/-- Claim C5 counterexample: with CUDA error checking disabled, a run
whose fault flag is set (raw value 1, low bit set) completes the
post-batch check with no escalation at all — the check is not
unconditional. -/
theorem C5_counterexample :
    postKernelFlagCheck false 1 = FlagCheckResult.ok ∧ (1 : ℕ) &&& 1 ≠ 0 := by
  exact ⟨rfl, by decide⟩

/-- Claim C5 (amended): only when CUDA error checking is enabled does
the caller inspect the fault flag after the batch; a set flag (low bit
non-zero) then raises a fatal error whose diagnostic carries the flag's
raw value. -/
theorem C5_flag_escalation (flag : ℕ) (h : flag &&& 1 ≠ 0) :
    postKernelFlagCheck true flag
      = FlagCheckResult.fatalError "AreaConservation: triangle out of bounds" flag := by
  unfold postKernelFlagCheck
  rw [if_pos rfl]
  exact if_pos h

/-- Witness for C5: flag value 3 has its low bit set and escalates with
raw value 3. -/
theorem C5_flag_escalation_witness :
    (3 : ℕ) &&& 1 ≠ 0 ∧
      postKernelFlagCheck true 3
        = FlagCheckResult.fatalError "AreaConservation: triangle out of bounds" 3 :=
  ⟨by decide, C5_flag_escalation 3 (by decide)⟩

/-- Claim C8: each of the four interior-angle cosines of the
incremental evaluator is clamped into `[-1, 1]`, so each argument
`1 - cos * cos` of the subsequent square root is nonnegative for every
input, including nearly collinear ones. -/
theorem C8_cosines_clamped (box : Scalar3 → Scalar3) (pos : ℕ → Scalar3)
    (a b c d : ℕ) :
    (-1 ≤ cBaac box pos a b c ∧ cBaac box pos a b c ≤ 1
      ∧ 0 ≤ 1 - cBaac box pos a b c * cBaac box pos a b c)
    ∧ (-1 ≤ cAbbd box pos a b d ∧ cAbbd box pos a b d ≤ 1
      ∧ 0 ≤ 1 - cAbbd box pos a b d * cAbbd box pos a b d)
    ∧ (-1 ≤ cDcca box pos a c d ∧ cDcca box pos a c d ≤ 1
      ∧ 0 ≤ 1 - cDcca box pos a c d * cDcca box pos a c d)
    ∧ (-1 ≤ cBddc box pos b c d ∧ cBddc box pos b c d ≤ 1
      ∧ 0 ≤ 1 - cBddc box pos b c d * cBddc box pos b c d) := by
  unfold cBaac cAbbd cDcca cBddc
  exact ⟨⟨(clamp1_bounds _).1, (clamp1_bounds _).2, clamp1_sq_le _⟩,
    ⟨(clamp1_bounds _).1, (clamp1_bounds _).2, clamp1_sq_le _⟩,
    ⟨(clamp1_bounds _).1, (clamp1_bounds _).2, clamp1_sq_le _⟩,
    ⟨(clamp1_bounds _).1, (clamp1_bounds _).2, clamp1_sq_le _⟩⟩

/-- Claim C9: for every type index within the table and every pair of
values — non-positive ones included — setting then getting returns
exactly the supplied pair, and warnings are emitted precisely for
non-positive values without altering what is stored. -/
theorem C9_params_roundtrip (st : ParamStore) (typ : ℕ) (Kv Av : ℝ)
    (h : typ < st.nTypes) :
    getParams (setParams st typ Kv Av).1 typ = Except.ok (Kv, Av)
      ∧ ((setParams st typ Kv Av).2 ≠ [] ↔ Kv ≤ 0 ∨ Av ≤ 0) := by
  constructor
  · unfold getParams setParams
    rw [if_neg (by simpa using Nat.not_le.mpr h)]
    simp [Function.update_same]
  · unfold setParams
    split_ifs <;> simp_all

/-- Witness for C9: type index 1 of a 2-type store, with a non-positive
stiffness `-3` and target area `7`. -/
theorem C9_params_roundtrip_witness :
    (1 < (⟨fun _ => 0, fun _ => 0, 2⟩ : ParamStore).nTypes)
      ∧ (getParams (setParams ⟨fun _ => 0, fun _ => 0, 2⟩ 1 (-3) 7).1 1
          = Except.ok ((-3 : ℝ), (7 : ℝ))
        ∧ ((setParams (⟨fun _ => 0, fun _ => 0, 2⟩ : ParamStore) 1 (-3) 7).2 ≠ []
            ↔ (-3 : ℝ) ≤ 0 ∨ (7 : ℝ) ≤ 0)) :=
  ⟨by decide, C9_params_roundtrip ⟨fun _ => 0, fun _ => 0, 2⟩ 1 (-3) 7 (by decide)⟩


section AccumulateLemmas

lemma accumulate_area {n idx : ℕ} {F : Scalar3} {e : ℝ} {v : Fin 6 → ℝ}
    {st : ForceState} : (accumulate n idx F e v st).area = st.area := by
  unfold accumulate
  split_ifs <;> rfl

lemma accumulate_energyW_ne {n idx i : ℕ} {F : Scalar3} {e : ℝ}
    {v : Fin 6 → ℝ} {st : ForceState} (h : i ≠ idx) :
    (accumulate n idx F e v st).energyW i = st.energyW i := by
  unfold accumulate
  split_ifs
  · exact Function.update_noteq h _ _
  · rfl

lemma accumulate_force_ne {n idx i : ℕ} {F : Scalar3} {e : ℝ}
    {v : Fin 6 → ℝ} {st : ForceState} (h : i ≠ idx) :
    (accumulate n idx F e v st).force i = st.force i := by
  unfold accumulate
  split_ifs
  · exact Function.update_noteq h _ _
  · rfl

lemma accumulate_virial_ne {n idx i : ℕ} {F : Scalar3} {e : ℝ}
    {v : Fin 6 → ℝ} {st : ForceState} (h : i ≠ idx) :
    (accumulate n idx F e v st).virial i = st.virial i := by
  unfold accumulate
  split_ifs
  · exact Function.update_noteq h _ _
  · rfl

lemma accumulate_energyW_self {n idx : ℕ} {F : Scalar3} {e : ℝ}
    {v : Fin 6 → ℝ} {st : ForceState} (h : idx < n) :
    (accumulate n idx F e v st).energyW idx = st.energyW idx + e := by
  unfold accumulate
  rw [if_pos h]
  exact Function.update_same _ _ _

lemma accumulate_force_self {n idx : ℕ} {F : Scalar3} {e : ℝ}
    {v : Fin 6 → ℝ} {st : ForceState} (h : idx < n) :
    (accumulate n idx F e v st).force idx = st.force idx + F := by
  unfold accumulate
  rw [if_pos h]
  exact Function.update_same _ _ _

lemma accumulate_energyW_ghost {n idx i : ℕ} {F : Scalar3} {e : ℝ}
    {v : Fin 6 → ℝ} {st : ForceState} (h : n ≤ i) :
    (accumulate n idx F e v st).energyW i = st.energyW i := by
  unfold accumulate
  split_ifs with hidx
  · exact Function.update_noteq (by omega) _ _
  · rfl

lemma accumulate_force_ghost {n idx i : ℕ} {F : Scalar3} {e : ℝ}
    {v : Fin 6 → ℝ} {st : ForceState} (h : n ≤ i) :
    (accumulate n idx F e v st).force i = st.force i := by
  unfold accumulate
  split_ifs with hidx
  · exact Function.update_noteq (by omega) _ _
  · rfl

lemma accumulate_virial_ghost {n idx i : ℕ} {F : Scalar3} {e : ℝ}
    {v : Fin 6 → ℝ} {st : ForceState} (h : n ≤ i) :
    (accumulate n idx F e v st).virial i = st.virial i := by
  unfold accumulate
  split_ifs with hidx
  · exact Function.update_noteq (by omega) _ _
  · rfl

lemma triangleStep_ghost {p : TriParams} {box : Scalar3 → Scalar3} {pd : PData}
    {cv : Bool} {At : ℝ} {st : ForceState} {tri : MeshTriangle} {i : ℕ}
    (h : pd.n ≤ i) :
    (triangleStep p box pd cv At st tri).force i = st.force i
      ∧ (triangleStep p box pd cv At st tri).energyW i = st.energyW i
      ∧ (triangleStep p box pd cv At st tri).virial i = st.virial i := by
  simp only [triangleStep]
  refine ⟨?_, ?_, ?_⟩
  · rw [accumulate_force_ghost h, accumulate_force_ghost h, accumulate_force_ghost h]
  · rw [accumulate_energyW_ghost h, accumulate_energyW_ghost h,
      accumulate_energyW_ghost h]
  · rw [accumulate_virial_ghost h, accumulate_virial_ghost h,
      accumulate_virial_ghost h]

lemma triangleStep_area {p : TriParams} {box : Scalar3 → Scalar3} {pd : PData}
    {cv : Bool} {At : ℝ} {st : ForceState} {tri : MeshTriangle} :
    (triangleStep p box pd cv At st tri).area
      = st.area
        + area2 (dVec box pd.pos (pd.rtag tri.tag0) (pd.rtag tri.tag1))
            (dVec box pd.pos (pd.rtag tri.tag0) (pd.rtag tri.tag2)) / 2 := by
  simp only [triangleStep]
  rw [accumulate_area, accumulate_area, accumulate_area]

lemma foldl_triangleStep_ghost (p : TriParams) (box : Scalar3 → Scalar3)
    (pd : PData) (cv : Bool) (At : ℝ) (i : ℕ) (h : pd.n ≤ i) :
    ∀ (tris : List MeshTriangle) (st : ForceState),
      (tris.foldl (triangleStep p box pd cv At) st).force i = st.force i
        ∧ (tris.foldl (triangleStep p box pd cv At) st).energyW i = st.energyW i
        ∧ (tris.foldl (triangleStep p box pd cv At) st).virial i = st.virial i := by
  intro tris
  induction tris with
  | nil => exact fun st => ⟨rfl, rfl, rfl⟩
  | cons t ts ih =>
    intro st
    rw [List.foldl_cons]
    obtain ⟨h1, h2, h3⟩ := ih (triangleStep p box pd cv At st t)
    obtain ⟨g1, g2, g3⟩ := @triangleStep_ghost p box pd cv At st t i h
    exact ⟨h1.trans g1, h2.trans g2, h3.trans g3⟩

lemma foldl_congr_fun {α β : Type} (f g : β → α → β)
    (h : ∀ b a, f b a = g b a) :
    ∀ (l : List α) (b : β), l.foldl f b = l.foldl g b := by
  intro l
  induction l with
  | nil => exact fun b => rfl
  | cons a as ih =>
    intro b
    rw [List.foldl_cons, List.foldl_cons, h, ih]

lemma triangleStep_K0 {p q : TriParams} (h : q.K 0 = p.K 0)
    (box : Scalar3 → Scalar3) (pd : PData) (cv : Bool) (At : ℝ)
    (st : ForceState) (tri : MeshTriangle) :
    triangleStep q box pd cv At st tri = triangleStep p box pd cv At st tri := by
  simp only [triangleStep, h]

end AccumulateLemmas

/-- Claim C1: per triangle, the per-particle energy scalar is
`K / (6 * At) * (area2 / 2 - At)^2`, and this same full scalar — not a
third of it — is added to the energy accumulator of each of the three
vertices whose resolved index is locally owned. -/
theorem C1_energy_full_share (p : TriParams) (box : Scalar3 → Scalar3)
    (pd : PData) (cv : Bool) (At : ℝ) (st : ForceState) (tri : MeshTriangle)
    (hab : pd.rtag tri.tag0 ≠ pd.rtag tri.tag1)
    (hac : pd.rtag tri.tag0 ≠ pd.rtag tri.tag2)
    (hbc : pd.rtag tri.tag1 ≠ pd.rtag tri.tag2) :
    (pd.rtag tri.tag0 < pd.n →
      (triangleStep p box pd cv At st tri).energyW (pd.rtag tri.tag0)
        = st.energyW (pd.rtag tri.tag0)
          + p.K 0 / (6 * At)
            * (area2 (dVec box pd.pos (pd.rtag tri.tag0) (pd.rtag tri.tag1))
                (dVec box pd.pos (pd.rtag tri.tag0) (pd.rtag tri.tag2)) / 2
               - At) ^ 2)
    ∧ (pd.rtag tri.tag1 < pd.n →
      (triangleStep p box pd cv At st tri).energyW (pd.rtag tri.tag1)
        = st.energyW (pd.rtag tri.tag1)
          + p.K 0 / (6 * At)
            * (area2 (dVec box pd.pos (pd.rtag tri.tag0) (pd.rtag tri.tag1))
                (dVec box pd.pos (pd.rtag tri.tag0) (pd.rtag tri.tag2)) / 2
               - At) ^ 2)
    ∧ (pd.rtag tri.tag2 < pd.n →
      (triangleStep p box pd cv At st tri).energyW (pd.rtag tri.tag2)
        = st.energyW (pd.rtag tri.tag2)
          + p.K 0 / (6 * At)
            * (area2 (dVec box pd.pos (pd.rtag tri.tag0) (pd.rtag tri.tag1))
                (dVec box pd.pos (pd.rtag tri.tag0) (pd.rtag tri.tag2)) / 2
               - At) ^ 2) := by
  refine ⟨fun hA => ?_, fun hB => ?_, fun hC => ?_⟩ <;> simp only [triangleStep]
  · rw [accumulate_energyW_ne hac, accumulate_energyW_ne hab,
      accumulate_energyW_self hA]
    dsimp only
    ring
  · rw [accumulate_energyW_ne hbc, accumulate_energyW_self hB,
      accumulate_energyW_ne (Ne.symm hab)]
    dsimp only
    ring
  · rw [accumulate_energyW_self hC, accumulate_energyW_ne (Ne.symm hbc),
      accumulate_energyW_ne (Ne.symm hac)]
    dsimp only
    ring

/-- Witness for C1: a unit right triangle on three owned particles with
the identity tag map; each vertex's energy accumulator gains the full
per-particle scalar. -/
theorem C1_energy_full_share_witness :
    (pdW.rtag triW.tag0 ≠ pdW.rtag triW.tag1
      ∧ pdW.rtag triW.tag0 ≠ pdW.rtag triW.tag2
      ∧ pdW.rtag triW.tag1 ≠ pdW.rtag triW.tag2)
    ∧ ((pdW.rtag triW.tag0 < pdW.n →
        (triangleStep pW idBox pdW false 1 initialForceState triW).energyW
            (pdW.rtag triW.tag0)
          = initialForceState.energyW (pdW.rtag triW.tag0)
            + pW.K 0 / (6 * 1)
              * (area2 (dVec idBox pdW.pos (pdW.rtag triW.tag0) (pdW.rtag triW.tag1))
                  (dVec idBox pdW.pos (pdW.rtag triW.tag0) (pdW.rtag triW.tag2)) / 2
                 - 1) ^ 2)
      ∧ (pdW.rtag triW.tag1 < pdW.n →
        (triangleStep pW idBox pdW false 1 initialForceState triW).energyW
            (pdW.rtag triW.tag1)
          = initialForceState.energyW (pdW.rtag triW.tag1)
            + pW.K 0 / (6 * 1)
              * (area2 (dVec idBox pdW.pos (pdW.rtag triW.tag0) (pdW.rtag triW.tag1))
                  (dVec idBox pdW.pos (pdW.rtag triW.tag0) (pdW.rtag triW.tag2)) / 2
                 - 1) ^ 2)
      ∧ (pdW.rtag triW.tag2 < pdW.n →
        (triangleStep pW idBox pdW false 1 initialForceState triW).energyW
            (pdW.rtag triW.tag2)
          = initialForceState.energyW (pdW.rtag triW.tag2)
            + pW.K 0 / (6 * 1)
              * (area2 (dVec idBox pdW.pos (pdW.rtag triW.tag0) (pdW.rtag triW.tag1))
                  (dVec idBox pdW.pos (pdW.rtag triW.tag0) (pdW.rtag triW.tag2)) / 2
                 - 1) ^ 2)) :=
  ⟨⟨by decide, by decide, by decide⟩,
    C1_energy_full_share pW idBox pdW false 1 initialForceState triW
      (by decide) (by decide) (by decide)⟩

/-- Claim C2: per triangle, the force added to each owned vertex is the
closed form `Fa = prefactor*((rabrac - rsqac)*dab + (rabrac - rsqab)*dac)`,
`Fb = prefactor*(rsqac*dab - rabrac*dac)`, `Fc = prefactor*(rsqab*dac
- rabrac*dab)` with `prefactor = -K/(2*At*area2)*(area2/2 - At)` and
`dab`, `dac` the minimum-image edge vectors. -/
theorem C2_closed_form_forces (p : TriParams) (box : Scalar3 → Scalar3)
    (pd : PData) (cv : Bool) (At : ℝ) (st : ForceState) (tri : MeshTriangle)
    (hab : pd.rtag tri.tag0 ≠ pd.rtag tri.tag1)
    (hac : pd.rtag tri.tag0 ≠ pd.rtag tri.tag2)
    (hbc : pd.rtag tri.tag1 ≠ pd.rtag tri.tag2) :
    (pd.rtag tri.tag0 < pd.n →
      (triangleStep p box pd cv At st tri).force (pd.rtag tri.tag0)
        = st.force (pd.rtag tri.tag0)
          + (-p.K 0
              / (2 * At
                * area2 (dVec box pd.pos (pd.rtag tri.tag0) (pd.rtag tri.tag1))
                    (dVec box pd.pos (pd.rtag tri.tag0) (pd.rtag tri.tag2)))
              * (area2 (dVec box pd.pos (pd.rtag tri.tag0) (pd.rtag tri.tag1))
                    (dVec box pd.pos (pd.rtag tri.tag0) (pd.rtag tri.tag2)) / 2
                 - At))
            * ((dotP (dVec box pd.pos (pd.rtag tri.tag0) (pd.rtag tri.tag1))
                  (dVec box pd.pos (pd.rtag tri.tag0) (pd.rtag tri.tag2))
                - dotP (dVec box pd.pos (pd.rtag tri.tag0) (pd.rtag tri.tag2))
                    (dVec box pd.pos (pd.rtag tri.tag0) (pd.rtag tri.tag2)))
                * dVec box pd.pos (pd.rtag tri.tag0) (pd.rtag tri.tag1)
              + (dotP (dVec box pd.pos (pd.rtag tri.tag0) (pd.rtag tri.tag1))
                    (dVec box pd.pos (pd.rtag tri.tag0) (pd.rtag tri.tag2))
                  - dotP (dVec box pd.pos (pd.rtag tri.tag0) (pd.rtag tri.tag1))
                      (dVec box pd.pos (pd.rtag tri.tag0) (pd.rtag tri.tag1)))
                * dVec box pd.pos (pd.rtag tri.tag0) (pd.rtag tri.tag2)))
    ∧ (pd.rtag tri.tag1 < pd.n →
      (triangleStep p box pd cv At st tri).force (pd.rtag tri.tag1)
        = st.force (pd.rtag tri.tag1)
          + (-p.K 0
              / (2 * At
                * area2 (dVec box pd.pos (pd.rtag tri.tag0) (pd.rtag tri.tag1))
                    (dVec box pd.pos (pd.rtag tri.tag0) (pd.rtag tri.tag2)))
              * (area2 (dVec box pd.pos (pd.rtag tri.tag0) (pd.rtag tri.tag1))
                    (dVec box pd.pos (pd.rtag tri.tag0) (pd.rtag tri.tag2)) / 2
                 - At))
            * (dotP (dVec box pd.pos (pd.rtag tri.tag0) (pd.rtag tri.tag2))
                  (dVec box pd.pos (pd.rtag tri.tag0) (pd.rtag tri.tag2))
                * dVec box pd.pos (pd.rtag tri.tag0) (pd.rtag tri.tag1)
              - dotP (dVec box pd.pos (pd.rtag tri.tag0) (pd.rtag tri.tag1))
                  (dVec box pd.pos (pd.rtag tri.tag0) (pd.rtag tri.tag2))
                * dVec box pd.pos (pd.rtag tri.tag0) (pd.rtag tri.tag2)))
    ∧ (pd.rtag tri.tag2 < pd.n →
      (triangleStep p box pd cv At st tri).force (pd.rtag tri.tag2)
        = st.force (pd.rtag tri.tag2)
          + (-p.K 0
              / (2 * At
                * area2 (dVec box pd.pos (pd.rtag tri.tag0) (pd.rtag tri.tag1))
                    (dVec box pd.pos (pd.rtag tri.tag0) (pd.rtag tri.tag2)))
              * (area2 (dVec box pd.pos (pd.rtag tri.tag0) (pd.rtag tri.tag1))
                    (dVec box pd.pos (pd.rtag tri.tag0) (pd.rtag tri.tag2)) / 2
                 - At))
            * (dotP (dVec box pd.pos (pd.rtag tri.tag0) (pd.rtag tri.tag1))
                  (dVec box pd.pos (pd.rtag tri.tag0) (pd.rtag tri.tag1))
                * dVec box pd.pos (pd.rtag tri.tag0) (pd.rtag tri.tag2)
              - dotP (dVec box pd.pos (pd.rtag tri.tag0) (pd.rtag tri.tag1))
                  (dVec box pd.pos (pd.rtag tri.tag0) (pd.rtag tri.tag2))
                * dVec box pd.pos (pd.rtag tri.tag0) (pd.rtag tri.tag1))) := by
  refine ⟨fun hA => ?_, fun hB => ?_, fun hC => ?_⟩ <;> simp only [triangleStep]
  · rw [accumulate_force_ne hac, accumulate_force_ne hab,
      accumulate_force_self hA]
  · rw [accumulate_force_ne hbc, accumulate_force_self hB,
      accumulate_force_ne (Ne.symm hab)]
  · rw [accumulate_force_self hC, accumulate_force_ne (Ne.symm hbc),
      accumulate_force_ne (Ne.symm hac)]

/-- Witness for C2: the unit right triangle on three owned particles;
the three force accumulators change by exactly the closed forms. -/
theorem C2_closed_form_forces_witness :
    (pdW.rtag triW.tag0 ≠ pdW.rtag triW.tag1
      ∧ pdW.rtag triW.tag0 ≠ pdW.rtag triW.tag2
      ∧ pdW.rtag triW.tag1 ≠ pdW.rtag triW.tag2)
    ∧ (pdW.rtag triW.tag1 < pdW.n →
      (triangleStep pW idBox pdW false 1 initialForceState triW).force
          (pdW.rtag triW.tag1)
        = initialForceState.force (pdW.rtag triW.tag1)
          + (-pW.K 0
              / (2 * 1
                * area2 (dVec idBox pdW.pos (pdW.rtag triW.tag0) (pdW.rtag triW.tag1))
                    (dVec idBox pdW.pos (pdW.rtag triW.tag0) (pdW.rtag triW.tag2)))
              * (area2 (dVec idBox pdW.pos (pdW.rtag triW.tag0) (pdW.rtag triW.tag1))
                    (dVec idBox pdW.pos (pdW.rtag triW.tag0) (pdW.rtag triW.tag2)) / 2
                 - 1))
            * (dotP (dVec idBox pdW.pos (pdW.rtag triW.tag0) (pdW.rtag triW.tag2))
                  (dVec idBox pdW.pos (pdW.rtag triW.tag0) (pdW.rtag triW.tag2))
                * dVec idBox pdW.pos (pdW.rtag triW.tag0) (pdW.rtag triW.tag1)
              - dotP (dVec idBox pdW.pos (pdW.rtag triW.tag0) (pdW.rtag triW.tag1))
                  (dVec idBox pdW.pos (pdW.rtag triW.tag0) (pdW.rtag triW.tag2))
                * dVec idBox pdW.pos (pdW.rtag triW.tag0) (pdW.rtag triW.tag2))) :=
  ⟨⟨by decide, by decide, by decide⟩,
    (C2_closed_form_forces pW idBox pdW false 1 initialForceState triW
      (by decide) (by decide) (by decide)).2.1⟩

/-- Claim C3: the sequential evaluator derives `At` from type 0's
`A_mesh` divided by the total triangle count, and the per-triangle loop
reads `K` and the target area at parameter index 0 only: parameters at
other indices and every triangle's own type are irrelevant to the
result. -/
theorem C3_type_zero_params (p : TriParams) (box : Scalar3 → Scalar3)
    (pd : PData) (cv : Bool) (tris : List MeshTriangle) :
    computeForces p box pd cv tris
        = tris.foldl
            (triangleStep p box pd cv (p.Amesh 0 / (tris.length : ℝ)))
            initialForceState
    ∧ (∀ q : TriParams, q.K 0 = p.K 0 → q.Amesh 0 = p.Amesh 0 →
        computeForces q box pd cv tris = computeForces p box pd cv tris)
    ∧ ∀ f : ℕ → ℕ,
        computeForces p box pd cv
            (tris.map fun t => ⟨t.tag0, t.tag1, t.tag2, f t.ttype⟩)
          = computeForces p box pd cv tris := by
  refine ⟨rfl, fun q hK hA => ?_, fun f => ?_⟩
  · simp only [computeForces, hA]
    exact foldl_congr_fun _ _ (fun st tri => triangleStep_K0 hK box pd cv _ st tri) tris _
  · simp only [computeForces, List.length_map, List.foldl_map]
    exact foldl_congr_fun _ _ (fun st tri => rfl) tris _

/-- Witness for C3: one triangle, parameters that agree at index 0 but
differ wildly at index 1, and a retyping map sending every type to 7. -/
theorem C3_type_zero_params_witness :
    ((⟨fun i => if i = 0 then 12 else 99, fun i => if i = 0 then 1 else 77⟩ :
        TriParams).K 0 = pW.K 0)
    ∧ ((⟨fun i => if i = 0 then 12 else 99, fun i => if i = 0 then 1 else 77⟩ :
        TriParams).Amesh 0 = pW.Amesh 0)
    ∧ computeForces
          ⟨fun i => if i = 0 then 12 else 99, fun i => if i = 0 then 1 else 77⟩
          idBox pdW false [triW]
        = computeForces pW idBox pdW false [triW]
    ∧ computeForces pW idBox pdW false
          ([triW].map fun t => ⟨t.tag0, t.tag1, t.tag2, (fun _ => 7) t.ttype⟩)
        = computeForces pW idBox pdW false [triW] :=
  ⟨by norm_num [pW], by norm_num [pW],
    (C3_type_zero_params pW idBox pdW false [triW]).2.1
      ⟨fun i => if i = 0 then 12 else 99, fun i => if i = 0 then 1 else 77⟩
      (by norm_num [pW]) (by norm_num [pW]),
    (C3_type_zero_params pW idBox pdW false [triW]).2.2 (fun _ => 7)⟩

/-- Claim C6: a triangle always contributes `area2 / 2` to the running
area, while no force, energy or virial component is ever written at an
index at or beyond the locally owned count — neither by one loop step
nor over a whole pass, where ghost slots stay at their zero
initialisation. -/
theorem C6_ghost_exclusion (p : TriParams) (box : Scalar3 → Scalar3)
    (pd : PData) (cv : Bool) (At : ℝ) (st : ForceState) (tri : MeshTriangle)
    (i : ℕ) (h : pd.n ≤ i) :
    ((triangleStep p box pd cv At st tri).force i = st.force i
      ∧ (triangleStep p box pd cv At st tri).energyW i = st.energyW i
      ∧ (triangleStep p box pd cv At st tri).virial i = st.virial i)
    ∧ (triangleStep p box pd cv At st tri).area
        = st.area
          + area2 (dVec box pd.pos (pd.rtag tri.tag0) (pd.rtag tri.tag1))
              (dVec box pd.pos (pd.rtag tri.tag0) (pd.rtag tri.tag2)) / 2
    ∧ ∀ tris : List MeshTriangle,
        (computeForces p box pd cv tris).force i = ⟨0, 0, 0⟩
          ∧ (computeForces p box pd cv tris).energyW i = 0
          ∧ (computeForces p box pd cv tris).virial i = fun _ => 0 := by
  refine ⟨triangleStep_ghost h, triangleStep_area, fun tris => ?_⟩
  obtain ⟨h1, h2, h3⟩ := foldl_triangleStep_ghost p box pd cv
    (p.Amesh 0 / (tris.length : ℝ)) i h tris initialForceState
  exact ⟨h1, h2, h3⟩

/-- Witness for C6: particle index 5 lies beyond the 3 owned particles
of the witness configuration; a step leaves its slots untouched and a
full pass leaves them zero. -/
theorem C6_ghost_exclusion_witness :
    pdW.n ≤ 5
    ∧ (((triangleStep pW idBox pdW false 1 initialForceState triW).force 5
          = initialForceState.force 5
        ∧ (triangleStep pW idBox pdW false 1 initialForceState triW).energyW 5
          = initialForceState.energyW 5
        ∧ (triangleStep pW idBox pdW false 1 initialForceState triW).virial 5
          = initialForceState.virial 5)
      ∧ (triangleStep pW idBox pdW false 1 initialForceState triW).area
          = initialForceState.area
            + area2 (dVec idBox pdW.pos (pdW.rtag triW.tag0) (pdW.rtag triW.tag1))
                (dVec idBox pdW.pos (pdW.rtag triW.tag0) (pdW.rtag triW.tag2)) / 2
      ∧ ∀ tris : List MeshTriangle,
          (computeForces pW idBox pdW false tris).force 5 = ⟨0, 0, 0⟩
            ∧ (computeForces pW idBox pdW false tris).energyW 5 = 0
            ∧ (computeForces pW idBox pdW false tris).virial 5 = fun _ => 0) :=
  ⟨by decide,
    C6_ghost_exclusion pW idBox pdW false 1 initialForceState triW 5 (by decide)⟩

section EnergyDiffLemmas

lemma energyDiff_eq_formula (p : TriParams) (box : Scalar3 → Scalar3)
    (pos : ℕ → Scalar3) (a b c d tid : ℕ) :
    energyDiff p box pos a b c d tid
      = p.K 0 / (2 * p.Amesh 0)
        * ((areaAcd box pos a c d - p.Amesh tid) ^ 2
           + (areaBcd box pos b c d - p.Amesh tid) ^ 2
           - (areaAbc box pos a b c - p.Amesh tid) ^ 2
           - (areaAbd box pos a b d - p.Amesh tid) ^ 2) := by
  simp only [energyDiff, areaAcd, areaBcd, areaAbc, areaAbd, cBaac, cAbbd,
    cDcca, cBddc, nVec, dVec, rlen, sOf]
  ring

lemma dVecE01 : dVec idBox posE 0 1 = ⟨1, 0, 0⟩ := by
  simp [dVec, idBox, posE]

lemma dVecE02 : dVec idBox posE 0 2 = ⟨-12, 5, 0⟩ := by
  simp [dVec, idBox, posE]

lemma dVecE13 : dVec idBox posE 1 3 = ⟨0, 5, 0⟩ := by
  simp [dVec, idBox, posE]

lemma dVecE32 : dVec idBox posE 3 2 = ⟨-13, 0, 0⟩ := by
  simp [dVec, idBox, posE]
  norm_num

lemma rlenE01 : rlen (⟨1, 0, 0⟩ : Scalar3) = 1 :=
  rlen_mk 1 0 0 1 (by norm_num) (by norm_num)

lemma rlenE02 : rlen (⟨-12, 5, 0⟩ : Scalar3) = 13 :=
  rlen_mk (-12) 5 0 13 (by norm_num) (by norm_num)

lemma rlenE13 : rlen (⟨0, 5, 0⟩ : Scalar3) = 5 :=
  rlen_mk 0 5 0 5 (by norm_num) (by norm_num)

lemma rlenE32 : rlen (⟨-13, 0, 0⟩ : Scalar3) = 13 :=
  rlen_mk (-13) 0 0 13 (by norm_num) (by norm_num)

lemma nVecE01 : nVec idBox posE 0 1 = ⟨1, 0, 0⟩ := by
  rw [nVec, dVecE01, rlenE01]
  simp

lemma nVecE02 : nVec idBox posE 0 2 = ⟨-12 / 13, 5 / 13, 0⟩ := by
  rw [nVec, dVecE02, rlenE02]
  simp

lemma nVecE13 : nVec idBox posE 1 3 = ⟨0, 1, 0⟩ := by
  rw [nVec, dVecE13, rlenE13]
  simp

lemma nVecE32 : nVec idBox posE 3 2 = ⟨-1, 0, 0⟩ := by
  rw [nVec, dVecE32, rlenE32]
  simp

lemma areaAbcE_eval : areaAbc idBox posE 0 1 2 = 5 / 2 := by
  have hc : cBaac idBox posE 0 1 2 = -12 / 13 := by
    rw [cBaac, nVecE01, nVecE02]
    rw [show dotP ⟨1, 0, 0⟩ ⟨-12 / 13, 5 / 13, 0⟩ = -12 / 13 by
      simp [dotP]]
    exact clamp1_of_mem _ (by norm_num) (by norm_num)
  simp only [areaAbc]
  rw [dVecE01, dVecE02, rlenE01, rlenE02, hc,
    sOf_eval (-12 / 13) (5 / 13) (by norm_num) (by norm_num)]
  norm_num

lemma areaAbdE_eval : areaAbd idBox posE 0 1 3 = 5 / 2 := by
  have hc : cAbbd idBox posE 0 1 3 = 0 := by
    rw [cAbbd, nVecE01, nVecE13]
    rw [show -dotP ⟨1, 0, 0⟩ ⟨0, 1, 0⟩ = 0 by simp [dotP]]
    exact clamp1_of_mem _ (by norm_num) (by norm_num)
  simp only [areaAbd]
  rw [dVecE01, dVecE13, rlenE01, rlenE13, hc,
    sOf_eval 0 1 (by norm_num) (by norm_num)]
  norm_num

lemma areaAcdE_eval : areaAcd idBox posE 0 2 3 = 65 / 2 := by
  have hc : cDcca idBox posE 0 2 3 = 12 / 13 := by
    rw [cDcca, nVecE32, nVecE02]
    rw [show dotP ⟨-1, 0, 0⟩ ⟨-12 / 13, 5 / 13, 0⟩ = 12 / 13 by
      simp [dotP]; norm_num]
    exact clamp1_of_mem _ (by norm_num) (by norm_num)
  simp only [areaAcd]
  rw [dVecE02, dVecE32, rlenE02, rlenE32, hc,
    sOf_eval (12 / 13) (5 / 13) (by norm_num) (by norm_num)]
  norm_num

lemma areaBcdE_eval : areaBcd idBox posE 1 2 3 = 65 / 2 := by
  have hc : cBddc idBox posE 1 2 3 = 0 := by
    rw [cBddc, nVecE32, nVecE13]
    rw [show -dotP ⟨-1, 0, 0⟩ ⟨0, 1, 0⟩ = 0 by simp [dotP]]
    exact clamp1_of_mem _ (by norm_num) (by norm_num)
  simp only [areaBcd]
  rw [dVecE32, dVecE13, rlenE32, rlenE13, hc,
    sOf_eval 0 1 (by norm_num) (by norm_num)]
  norm_num

lemma energyDiffE_val : energyDiff pE idBox posE 0 1 2 3 1 = 930 := by
  rw [energyDiff_eq_formula, areaAcdE_eval, areaBcdE_eval, areaAbcE_eval,
    areaAbdE_eval]
  norm_num [pE]

lemma energyDiffClaimE1_val : energyDiffClaim pE idBox posE 0 1 2 3 1 = 465 := by
  simp only [energyDiffClaim]
  rw [areaAcdE_eval, areaBcdE_eval, areaAbcE_eval, areaAbdE_eval]
  norm_num [pE]

lemma energyDiffClaimE0_val : energyDiffClaim pE idBox posE 0 1 2 3 0 = 990 := by
  simp only [energyDiffClaim]
  rw [areaAcdE_eval, areaBcdE_eval, areaAbcE_eval, areaAbdE_eval]
  norm_num [pE]

end EnergyDiffLemmas

/-- Claim C7 counterexample: at a concrete planar configuration and a
parameter table whose target areas differ between indices 0 and 1, the
value returned for `type_id = 1` (930) matches neither single-type
reading of the claimed formula — neither with type 1's parameters (465)
nor with type 0's (990). -/
theorem C7_counterexample :
    energyDiff pE idBox posE 0 1 2 3 1 ≠ energyDiffClaim pE idBox posE 0 1 2 3 1
    ∧ energyDiff pE idBox posE 0 1 2 3 1 ≠ energyDiffClaim pE idBox posE 0 1 2 3 0 := by
  constructor
  · rw [energyDiffE_val, energyDiffClaimE1_val]
    norm_num
  · rw [energyDiffE_val, energyDiffClaimE0_val]
    norm_num

/-- Claim C7 (amended): the incremental evaluator returns
`K[0] / (2 * A0[0])` times the signed sum of squared deviations of the
four law-of-sines areas from the target stored at index `type_id`; it
is a pure function of the positions, box, and just those parameter
entries — no accumulator is involved. -/
theorem C7_energy_delta (p : TriParams) (box : Scalar3 → Scalar3)
    (pos : ℕ → Scalar3) (a b c d tid : ℕ) :
    (energyDiff p box pos a b c d tid
      = p.K 0 / (2 * p.Amesh 0)
        * ((areaAcd box pos a c d - p.Amesh tid) ^ 2
           + (areaBcd box pos b c d - p.Amesh tid) ^ 2
           - (areaAbc box pos a b c - p.Amesh tid) ^ 2
           - (areaAbd box pos a b d - p.Amesh tid) ^ 2))
    ∧ ∀ q : TriParams, q.K 0 = p.K 0 → q.Amesh 0 = p.Amesh 0 →
        q.Amesh tid = p.Amesh tid →
        energyDiff q box pos a b c d tid = energyDiff p box pos a b c d tid := by
  refine ⟨energyDiff_eq_formula p box pos a b c d tid, fun q h1 h2 h3 => ?_⟩
  rw [energyDiff_eq_formula, energyDiff_eq_formula, h1, h2, h3]

/-- Witness for C7: a parameter table that agrees with `pE` at the
entries the evaluator reads (`K[0]`, `A0[0]`, `A0[1]`) but differs at
`K[1]` gives the identical energy delta. -/
theorem C7_energy_delta_witness :
    ((⟨fun i => if i = 0 then 1 else 5, fun i => if i = 0 then 1 else 2⟩ :
        TriParams).K 0 = pE.K 0)
    ∧ ((⟨fun i => if i = 0 then 1 else 5, fun i => if i = 0 then 1 else 2⟩ :
        TriParams).Amesh 0 = pE.Amesh 0)
    ∧ ((⟨fun i => if i = 0 then 1 else 5, fun i => if i = 0 then 1 else 2⟩ :
        TriParams).Amesh 1 = pE.Amesh 1)
    ∧ energyDiff
          ⟨fun i => if i = 0 then 1 else 5, fun i => if i = 0 then 1 else 2⟩
          idBox posE 0 1 2 3 1
        = energyDiff pE idBox posE 0 1 2 3 1 :=
  ⟨by norm_num [pE], by norm_num [pE], by norm_num [pE],
    (C7_energy_delta pE idBox posE 0 1 2 3 1).2
      ⟨fun i => if i = 0 then 1 else 5, fun i => if i = 0 then 1 else 2⟩
      (by norm_num [pE]) (by norm_num [pE]) (by norm_num [pE])⟩

/-- Claim C10: for every call, the four area deviations are formed
against the target area stored at index `type_id` while the scale
factor reads the stiffness and target area stored at index 0; when
`type_id = 0` the result coincides with the consistent single-type
formula. -/
theorem C10_mixed_param_indices (p : TriParams) (box : Scalar3 → Scalar3)
    (pos : ℕ → Scalar3) (a b c d tid : ℕ) :
    (energyDiff p box pos a b c d tid
      = p.K 0 / (2 * p.Amesh 0)
        * ((areaAcd box pos a c d - p.Amesh tid) ^ 2
           + (areaBcd box pos b c d - p.Amesh tid) ^ 2
           - (areaAbc box pos a b c - p.Amesh tid) ^ 2
           - (areaAbd box pos a b d - p.Amesh tid) ^ 2))
    ∧ (tid = 0 →
        energyDiff p box pos a b c d tid = energyDiffClaim p box pos a b c d 0) := by
  refine ⟨energyDiff_eq_formula p box pos a b c d tid, fun h0 => ?_⟩
  subst h0
  rw [energyDiff_eq_formula]
  simp only [energyDiffClaim]
  ring

/-- Witness for C10: at `type_id = 0` the mixed-index value agrees with
the consistent single-type formula on the concrete configuration. -/
theorem C10_mixed_param_indices_witness :
    energyDiff pE idBox posE 0 1 2 3 0 = energyDiffClaim pE idBox posE 0 1 2 3 0 :=
  (C10_mixed_param_indices pE idBox posE 0 1 2 3 0).2 rfl
